import Mathlib

/-!
Shallow embedding of two React components of firebase-tools-ui:
`src/components/Firestore/DocumentEditor/index.tsx` (the nested document
editor) and `src/components/Firestore/Rules/EvaluationDetails.tsx` (the
rules-evaluation details view), together with the data model they render.
Pure rendering is embedded as pure functions from props/state to a render
tree plus the list of Redux actions the component dispatches.
-/

namespace FirebaseToolsUi

/-- Modelled from the spec: `../models` is not under src.  A Firestore
value is a tagged JSON-like tree: six leaf kinds (string, number, boolean,
timestamp, geopoint, reference), null, and the two containers map and
array.  TS numbers are embedded as `Int`. -/
inductive FirestoreAny where
  | str (s : String)
  | num (n : Int)
  | boolean (b : Bool)
  | timestamp (seconds nanoseconds : Int)
  | geopoint (latitude longitude : Int)
  | reference (path : String)
  | null
  | map (fields : List (String × FirestoreAny))
  | array (elements : List FirestoreAny)

/-- Modelled from the spec: `../models` is not under src.  The nine
Firestore field types named by `FieldType` in models.ts. -/
inductive FieldType where
  | string
  | number
  | boolean
  | map
  | array
  | null
  | timestamp
  | geopoint
  | reference
deriving DecidableEq, Repr

/-- Modelled from the spec: `../utils` is not under src.  Type guard for
strings. -/
def isString : FirestoreAny → Bool
  | .str _ => true
  | _ => false

/-- Modelled from the spec: `../utils` is not under src.  Type guard for
numbers. -/
def isNumber : FirestoreAny → Bool
  | .num _ => true
  | _ => false

/-- Modelled from the spec: `../utils` is not under src.  Type guard for
booleans. -/
def isBoolean : FirestoreAny → Bool
  | .boolean _ => true
  | _ => false

/-- Modelled from the spec: `../utils` is not under src.  Type guard for
timestamps. -/
def isTimestamp : FirestoreAny → Bool
  | .timestamp _ _ => true
  | _ => false

/-- Modelled from the spec: `../utils` is not under src.  Type guard for
geo points. -/
def isGeoPoint : FirestoreAny → Bool
  | .geopoint _ _ => true
  | _ => false

/-- Modelled from the spec: `../utils` is not under src.  Type guard for
document references. -/
def isReference : FirestoreAny → Bool
  | .reference _ => true
  | _ => false

/-- Modelled from the spec: `../utils` is not under src.  Type guard for
maps. -/
def isMap : FirestoreAny → Bool
  | .map _ => true
  | _ => false

/-- Modelled from the spec: `../utils` is not under src.  Type guard for
arrays. -/
def isArray : FirestoreAny → Bool
  | .array _ => true
  | _ => false

/-- Modelled from the spec: `../utils` is not under src.  A value is
primitive when it is neither a map nor an array. -/
def isPrimitive (v : FirestoreAny) : Bool :=
  !isMap v && !isArray v

/-- Modelled from the spec: `../utils` is not under src.  Maps a value to
its field type tag. -/
def getFieldType : FirestoreAny → FieldType
  | .str _ => .string
  | .num _ => .number
  | .boolean _ => .boolean
  | .timestamp _ _ => .timestamp
  | .geopoint _ _ => .geopoint
  | .reference _ => .reference
  | .null => .null
  | .map _ => .map
  | .array _ => .array

/-- Modelled from the spec: `../utils` is not under src.  The last
segment of a field path (empty for the root path). -/
def lastFieldName (path : List String) : String :=
  path.getLastD ""

/-- `FIRESTORE_FIELD_TYPES` from DocumentEditor/index.tsx: the nine field
types offered by the Firestore type selector. -/
def FIRESTORE_FIELD_TYPES : List FieldType :=
  [.string, .number, .boolean, .map, .array, .null, .timestamp, .geopoint,
   .reference]

/-- `RTDB_FIELD_TYPES` from DocumentEditor/index.tsx: the five field types
offered by the Realtime-Database type selector. -/
def RTDB_FIELD_TYPES : List FieldType :=
  [.string, .number, .boolean, .map, .array]

/-- `supportedFieldTypeSet` from DocumentEditor/index.tsx: the set built
from `FIRESTORE_FIELD_TYPES`, embedded as list membership. -/
def supportedFieldTypeSet : List FieldType :=
  FIRESTORE_FIELD_TYPES

/-- `supportsEditing` from DocumentEditor/index.tsx. -/
def supportsEditing (value : FirestoreAny) : Bool :=
  supportedFieldTypeSet.contains (getFieldType value)

/-- The options list of the `Select` rendered by `NestedEditor`
(DocumentEditor/index.tsx line 235): `isRtdb ? RTDB_FIELD_TYPES :
FIRESTORE_FIELD_TYPES`. -/
def typeSelectOptions (isRtdb : Bool) : List FieldType :=
  if isRtdb then RTDB_FIELD_TYPES else FIRESTORE_FIELD_TYPES

/-- Embedding of the JS template literal rendering of a nonnegative
integer (the TS source writes the index and the path length with a
backtick template): the decimal digit string, with `"0"` for zero. -/
def natToString (n : Nat) : String :=
  if n = 0 then "0"
  else ((Nat.digits 10 n).reverse.map Nat.digitChar).asString

/-- One of the six leaf editors rendered by `NestedEditor`, with the value
it edits. -/
inductive LeafEditor where
  | stringEditor (value : String)
  | numberEditor (value : Int)
  | booleanEditor (value : Bool)
  | geoPointEditor (latitude longitude : Int)
  | timestampEditor (seconds nanoseconds : Int)
  | referenceEditor (path : String)

/-- The conditional `isString(state) && <StringEditor .../>` slot of
`NestedEditor`: rendered exactly when the string type guard holds. -/
def stringEditorSlot : FirestoreAny → Option LeafEditor
  | .str s => some (.stringEditor s)
  | _ => none

/-- The conditional `isNumber(state) && <NumberEditor .../>` slot. -/
def numberEditorSlot : FirestoreAny → Option LeafEditor
  | .num n => some (.numberEditor n)
  | _ => none

/-- The conditional `isBoolean(state) && <BooleanEditor .../>` slot. -/
def booleanEditorSlot : FirestoreAny → Option LeafEditor
  | .boolean b => some (.booleanEditor b)
  | _ => none

/-- The conditional `isGeoPoint(state) && <GeoPointEditor .../>` slot. -/
def geoPointEditorSlot : FirestoreAny → Option LeafEditor
  | .geopoint la lo => some (.geoPointEditor la lo)
  | _ => none

/-- The conditional `isTimestamp(state) && <TimestampEditor .../>` slot. -/
def timestampEditorSlot : FirestoreAny → Option LeafEditor
  | .timestamp s ns => some (.timestampEditor s ns)
  | _ => none

/-- The conditional `isReference(state) && <ReferenceEditor .../>` slot. -/
def referenceEditorSlot : FirestoreAny → Option LeafEditor
  | .reference p => some (.referenceEditor p)
  | _ => none

/-- The `fieldEditor` fragment of `NestedEditor`
(DocumentEditor/index.tsx lines 187 to 208): six guarded slots in source
order; each slot contributes its editor exactly when its type guard
holds. -/
def fieldEditor (state : FirestoreAny) : List LeafEditor :=
  (stringEditorSlot state).toList ++ (numberEditorSlot state).toList ++
    (booleanEditorSlot state).toList ++ (geoPointEditorSlot state).toList ++
    (timestampEditorSlot state).toList ++ (referenceEditorSlot state).toList

/-- Whether a value belongs to one of the six advertised leaf kinds. -/
def isLeafKind (state : FirestoreAny) : Bool :=
  isString state || isNumber state || isBoolean state || isGeoPoint state ||
    isTimestamp state || isReference state

/-- The render tree produced by the recursive `NestedEditor` component:
the field path, the mutability of the key text field, the React key under
which the node is mounted in its parent, the leaf editors rendered for
the value, and `children` mirroring `childEditors` (`none` embeds the TS
`null`, `some` a list of child editors). -/
inductive NestedRender where
  | node (path : List String) (keyMutable : Bool) (reactKey : String)
      (leafEditors : List LeafEditor)
      (children : Option (List NestedRender))

/-- The field path of a rendered `NestedEditor` node. -/
def NestedRender.path : NestedRender → List String
  | .node p _ _ _ _ => p

/-- The `isKeyMutable` prop of a rendered `NestedEditor` node. -/
def NestedRender.keyMutable : NestedRender → Bool
  | .node _ m _ _ _ => m

/-- The React `key` prop of a rendered `NestedEditor` node. -/
def NestedRender.reactKey : NestedRender → String
  | .node _ _ k _ _ => k

/-- The leaf editors of a rendered `NestedEditor` node. -/
def NestedRender.leafEditors : NestedRender → List LeafEditor
  | .node _ _ _ l _ => l

/-- The `childEditors` of a rendered `NestedEditor` node. -/
def NestedRender.children : NestedRender → Option (List NestedRender)
  | .node _ _ _ _ c => c

mutual

/-- Embedding of `NestedEditor` (DocumentEditor/index.tsx lines 159 to
279).  `state` is the value `useFieldState(path)` reads at `path`; the
React key the parent mounted the node under is passed alongside.  For a
map, `childEditors` maps each key to a child editor at `path ++ [key]`
with a mutable key; for an array, each index to a child editor at
`path ++ [toString index]` with an immutable key; otherwise
`childEditors` stays `null`. -/
def renderNested (path : List String) (isKeyMutable : Bool)
    (reactKey : String) (state : FirestoreAny) : NestedRender :=
  NestedRender.node path isKeyMutable reactKey (fieldEditor state)
    (match state with
     | .map fields => some (renderMapChildren path fields)
     | .array elements => some (renderArrayChildren path 0 elements)
     | _ => none)

/-- The `Object.keys(state).map(childLeaf => ...)` branch of
`NestedEditor`: one child editor per map entry, in order. -/
def renderMapChildren (path : List String) :
    List (String × FirestoreAny) → List NestedRender
  | [] => []
  | (childLeaf, value) :: rest =>
      renderNested (path ++ [childLeaf]) true childLeaf value ::
        renderMapChildren path rest

/-- The `state.map((value, index) => ...)` branch of `NestedEditor`: one
child editor per array element, indexed from `index`. -/
def renderArrayChildren (path : List String) (index : Nat) :
    List FirestoreAny → List NestedRender
  | [] => []
  | value :: rest =>
      renderNested (path ++ [natToString index]) false (natToString index)
        value :: renderArrayChildren path (index + 1) rest

end

/-- The action dispatched by the add-field button of an array-valued
field (DocumentEditor/index.tsx lines 252 to 266): the key appended to
the path is the rendering of `path.length`, and the new value is the
empty string. -/
def arrayAddFieldPath (path : List String) : List String :=
  path ++ [natToString path.length]

mutual

/-- The number of nodes of a document value tree. -/
def nodeCount : FirestoreAny → Nat
  | .map fields => 1 + fieldsNodeCount fields
  | .array elements => 1 + elementsNodeCount elements
  | _ => 1

/-- Total node count of a map's entries. -/
def fieldsNodeCount : List (String × FirestoreAny) → Nat
  | [] => 0
  | (_, value) :: rest => nodeCount value + fieldsNodeCount rest

/-- Total node count of an array's elements. -/
def elementsNodeCount : List FirestoreAny → Nat
  | [] => 0
  | value :: rest => nodeCount value + elementsNodeCount rest

end

mutual

/-- The number of editor nodes in a render tree. -/
def renderSize : NestedRender → Nat
  | .node _ _ _ _ none => 1
  | .node _ _ _ _ (some children) => 1 + renderListSize children

/-- Total editor-node count of a list of render trees. -/
def renderListSize : List NestedRender → Nat
  | [] => 0
  | r :: rest => renderSize r + renderListSize rest

end

/-- Modelled from the spec: `rules_evaluation_result_model` is not under
src.  A line-by-line rules outcome is allow or deny. -/
inductive RulesOutcome where
  | allow
  | deny
deriving DecidableEq, Repr

/-- Modelled from the spec: `rules_evaluation_result_model` is not under
src.  One granular allow outcome: a rules-source line and its outcome. -/
structure GranularAllowOutcome where
  line : Nat
  outcome : RulesOutcome
deriving DecidableEq, Repr

/-- `LineOutcome` from Rules/types: the shape `{ line, outcome }` passed
to the code display. -/
structure LineOutcome where
  line : Nat
  outcome : RulesOutcome
deriving DecidableEq, Repr

/-- Modelled from the spec: `rules_evaluation_result_model` is not under
src.  A rules evaluation as supplied by the external rules-evaluation
service: its id, request metadata, the overall outcome, and optionally
the pre-computed granular line outcomes. -/
structure FirestoreRulesEvaluation where
  evaluationId : String
  requestTime : Nat
  requestMethod : String
  resourcePath : String
  outcome : RulesOutcome
  granularAllowOutcomes : Option (List GranularAllowOutcome)
deriving DecidableEq, Repr

/-- Modelled from the spec: the firestoreRules store slice is not under
src.  The store state the selectors read: the evaluations received from
the service and the id selected by the route. -/
structure FirestoreRulesState where
  evaluations : List FirestoreRulesEvaluation
  selectedEvaluationId : Option String
deriving DecidableEq, Repr

/-- Modelled from the spec: `store/firestoreRules/selectors` is not under
src.  Returns the stored evaluation matching the selected id, when
any. -/
def getSelectedRequestEvaluation (state : FirestoreRulesState) :
    Option FirestoreRulesEvaluation :=
  state.selectedEvaluationId.bind fun id =>
    state.evaluations.find? fun ev => ev.evaluationId == id

/-- The actions of the firestoreRules slice that EvaluationDetails can
dispatch; `getRequestEvaluationById` carries its single `string | null`
argument. -/
inductive RulesAction where
  | getRequestEvaluationById (selectedEvaluationId : Option String)
deriving DecidableEq, Repr

/-- `PropsFromState` of EvaluationDetails.tsx. -/
structure PropsFromState where
  selectedEvaluation : Option FirestoreRulesEvaluation
deriving DecidableEq, Repr

/-- Modelled from the spec: `createStructuredSelector` comes from the
store module, not under src.  Applied to a record holding one selector
per prop, it builds the state-to-props function applying each selector
to the state. -/
structure SelectorRecord where
  selectedEvaluation : FirestoreRulesState → Option FirestoreRulesEvaluation

/-- Modelled from the spec: `createStructuredSelector` composes the
record of selectors pointwise. -/
def createStructuredSelector (selectors : SelectorRecord)
    (state : FirestoreRulesState) : PropsFromState :=
  { selectedEvaluation := selectors.selectedEvaluation state }

/-- `mapStateToProps` of EvaluationDetails.tsx (lines 85 to 87): the
structured selector built from `getSelectedRequestEvaluation` alone. -/
def mapStateToProps : FirestoreRulesState → PropsFromState :=
  createStructuredSelector { selectedEvaluation := getSelectedRequestEvaluation }

/-- `mapDispatchToProps` of EvaluationDetails.tsx (lines 88 to 94),
embedded as the action the produced `getEvaluationById` callback
dispatches for a given argument. -/
def mapDispatchToProps (selectedEvaluationId : Option String) : RulesAction :=
  RulesAction.getRequestEvaluationById selectedEvaluationId

/-- Modelled from the spec: `sample-rules` is not under src.  The fixed
rules source text shipped with the view. -/
def sampleRules : String :=
  "service cloud.firestore sample rules source"

/-- The route parameters `useParams` reads in EvaluationDetails.tsx. -/
structure RouteParams where
  evaluationId : String
deriving DecidableEq, Repr

/-- The header display data `useEvaluationCleanMainData` returns. -/
structure CleanMainData where
  requestTimeComplete : String
  requestTimeFromNow : String
  requestMethod : String
  resourceSubPaths : List String
  outcomeData : Option RulesOutcome
deriving DecidableEq, Repr

/-- Modelled from the spec: `./utils` of the Rules view is not under src.
Derives the read-only header fields from the selected evaluation without
computing any outcome of its own: the outcome shown is the evaluation's
stored outcome. -/
def useEvaluationCleanMainData (selectedEvaluation :
    Option FirestoreRulesEvaluation) : CleanMainData :=
  match selectedEvaluation with
  | none =>
      { requestTimeComplete := ""
        requestTimeFromNow := ""
        requestMethod := ""
        resourceSubPaths := []
        outcomeData := none }
  | some ev =>
      { requestTimeComplete := natToString ev.requestTime
        requestTimeFromNow := natToString ev.requestTime
        requestMethod := ev.requestMethod
        resourceSubPaths := ev.resourcePath.splitOn "/"
        outcomeData := some ev.outcome }

/-- The `linesOutcome` computation of EvaluationDetails.tsx (lines 55 to
60): `selectedEvaluation?.granularAllowOutcomes?.map(g => ({ line, outcome }))`,
with the optional chaining embedded by `Option.bind`. -/
def linesOutcome (selectedEvaluation : Option FirestoreRulesEvaluation) :
    Option (List LineOutcome) :=
  (selectedEvaluation.bind fun ev => ev.granularAllowOutcomes).map fun gs =>
    gs.map fun granularAllowOutcome =>
      { line := granularAllowOutcome.line
        outcome := granularAllowOutcome.outcome }

/-- The props EvaluationDetails passes to `EvaluationDetailsCode`. -/
structure EvaluationDetailsCodeProps where
  linesOutcome : Option (List LineOutcome)
  firestoreRules : String
deriving DecidableEq, Repr

/-- One render of the EvaluationDetails component: the header props, the
code props, and the actions the declared `useEffect` dispatches when it
runs. -/
structure EvaluationDetailsRender where
  header : CleanMainData
  code : EvaluationDetailsCodeProps
  effects : List RulesAction
deriving DecidableEq, Repr

/-- Embedding of the `EvaluationDetails` component (EvaluationDetails.tsx
lines 43 to 83): given the `selectedEvaluation` prop and the route
parameters, it renders the header from `useEvaluationCleanMainData`, the
code view with `linesOutcome` and the fixed `sampleRules`, and declares
one effect dispatching `getEvaluationById(evaluationId)`. -/
def evaluationDetails (selectedEvaluation : Option FirestoreRulesEvaluation)
    (params : RouteParams) : EvaluationDetailsRender :=
  { header := useEvaluationCleanMainData selectedEvaluation
    code :=
      { linesOutcome := linesOutcome selectedEvaluation
        firestoreRules := sampleRules }
    effects := [mapDispatchToProps (some params.evaluationId)] }

/-- One rendering step of the connected component against the store: the
props come from `mapStateToProps`, the render is pure, and the store
state is returned unchanged. -/
def connectedRenderStep (state : FirestoreRulesState) (params : RouteParams) :
    FirestoreRulesState × EvaluationDetailsRender :=
  (state, evaluationDetails (mapStateToProps state).selectedEvaluation params)

/-- A concrete evaluation used to instantiate hypotheses of the theorems
below. -/
def sampleEvaluation : FirestoreRulesEvaluation :=
  { evaluationId := "eval-1"
    requestTime := 5
    requestMethod := "get"
    resourcePath := "databases/d/documents/a"
    outcome := RulesOutcome.allow
    granularAllowOutcomes := some [⟨7, RulesOutcome.allow⟩, ⟨9, RulesOutcome.deny⟩] }

/-- A concrete store state holding `sampleEvaluation`, selected. -/
def sampleState : FirestoreRulesState :=
  { evaluations := [sampleEvaluation]
    selectedEvaluationId := some "eval-1" }

theorem digitChar_injOn (a b : Nat) (ha : a < 10) (hb : b < 10)
    (h : Nat.digitChar a = Nat.digitChar b) : a = b := by
  interval_cases a <;> interval_cases b <;> (revert h ; decide)

theorem map_digitChar_injOn : ∀ (l1 l2 : List Nat), (∀ x ∈ l1, x < 10) →
    (∀ x ∈ l2, x < 10) → l1.map Nat.digitChar = l2.map Nat.digitChar → l1 = l2
  | [], [], _, _, _ => rfl
  | [], _ :: _, _, _, h => by simp at h
  | _ :: _, [], _, _, h => by simp at h
  | a :: l1, b :: l2, h1, h2, h => by
      simp only [List.map_cons, List.cons.injEq] at h
      have ha := h1 a (List.mem_cons_self a l1)
      have hb := h2 b (List.mem_cons_self b l2)
      have hab := digitChar_injOn a b ha hb h.1
      subst hab
      have htl := map_digitChar_injOn l1 l2
        (fun x hx => h1 x (List.mem_cons_of_mem _ hx))
        (fun x hx => h2 x (List.mem_cons_of_mem _ hx)) h.2
      rw [htl]

theorem digits_reverse_map_injOn {m n : Nat}
    (h : (Nat.digits 10 m).reverse.map Nat.digitChar =
      (Nat.digits 10 n).reverse.map Nat.digitChar) : m = n := by
  have hm : ∀ x ∈ (Nat.digits 10 m).reverse, x < 10 := fun x hx =>
    Nat.digits_lt_base (by norm_num) (List.mem_reverse.mp hx)
  have hn : ∀ x ∈ (Nat.digits 10 n).reverse, x < 10 := fun x hx =>
    Nat.digits_lt_base (by norm_num) (List.mem_reverse.mp hx)
  have hrev := map_digitChar_injOn _ _ hm hn h
  have hdig : Nat.digits 10 m = Nat.digits 10 n := by
    have := congrArg List.reverse hrev
    simpa using this
  calc m = Nat.ofDigits 10 (Nat.digits 10 m) := (Nat.ofDigits_digits 10 m).symm
    _ = Nat.ofDigits 10 (Nat.digits 10 n) := by rw [hdig]
    _ = n := Nat.ofDigits_digits 10 n

theorem natToString_ne_zero_of_ne {n : Nat} (hn : n ≠ 0) :
    natToString n ≠ "0" := by
  intro h
  unfold natToString at h
  rw [if_neg hn] at h
  have h0 : ("0" : String) = List.asString ['0'] := rfl
  rw [h0] at h
  have hl := List.asString_inj.mp h
  have hlt : ∀ x ∈ (Nat.digits 10 n).reverse, x < 10 := fun x hx =>
    Nat.digits_lt_base (by norm_num) (List.mem_reverse.mp hx)
  have h01 : ∀ x ∈ [0], x < 10 := by decide
  have : (Nat.digits 10 n).reverse = [0] := by
    apply map_digitChar_injOn _ _ hlt h01
    simpa using hl
  have hdig : Nat.digits 10 n = [0] := by
    have := congrArg List.reverse this
    simpa using this
  have := Nat.ofDigits_digits 10 n
  rw [hdig] at this
  simp [Nat.ofDigits] at this
  exact hn this.symm

theorem natToString_injective : Function.Injective natToString := by
  intro m n h
  by_cases hm : m = 0 <;> by_cases hn : n = 0
  · rw [hm, hn]
  · subst hm
    exact absurd h.symm (natToString_ne_zero_of_ne hn)
  · subst hn
    exact absurd h (natToString_ne_zero_of_ne hm)
  · unfold natToString at h
    rw [if_neg hm, if_neg hn] at h
    exact digits_reverse_map_injOn (List.asString_inj.mp h)

theorem lastFieldName_append_single (path : List String) (s : String) :
    lastFieldName (path ++ [s]) = s := by
  simp [lastFieldName]

/-- C1 (counterexample): the claim that a leaf editor is picked for every
value fails at the null value — `NestedEditor` renders none of the six
leaf editors for a null field. -/
theorem fieldEditor_null_renders_no_leaf : fieldEditor FirestoreAny.null = [] := rfl

/-- C1 (amended): leaf-editor selection in `NestedEditor` is a type
dispatch: never more than one of the six leaf editors is rendered, one is
rendered exactly when the value is of one of the six leaf kinds (string,
number, boolean, geopoint, timestamp, reference), the editor rendered
matches the value's kind and carries its payload, and for map, array and
null values no leaf editor is rendered. -/
theorem fieldEditor_leaf_dispatch :
    (∀ state : FirestoreAny, (fieldEditor state).length ≤ 1) ∧
    (∀ state : FirestoreAny,
      ((fieldEditor state).length = 1 ↔ isLeafKind state = true)) ∧
    (∀ s, fieldEditor (.str s) = [.stringEditor s]) ∧
    (∀ n, fieldEditor (.num n) = [.numberEditor n]) ∧
    (∀ b, fieldEditor (.boolean b) = [.booleanEditor b]) ∧
    (∀ la lo, fieldEditor (.geopoint la lo) = [.geoPointEditor la lo]) ∧
    (∀ s ns, fieldEditor (.timestamp s ns) = [.timestampEditor s ns]) ∧
    (∀ p, fieldEditor (.reference p) = [.referenceEditor p]) ∧
    (∀ fields, fieldEditor (.map fields) = []) ∧
    (∀ elements, fieldEditor (.array elements) = []) ∧
    fieldEditor .null = [] := by
  refine ⟨fun state => ?_, fun state => ?_, fun s => rfl, fun n => rfl,
    fun b => rfl, fun la lo => rfl, fun s ns => rfl, fun p => rfl,
    fun fields => rfl, fun elements => rfl, rfl⟩
  · cases state <;> simp [fieldEditor, stringEditorSlot, numberEditorSlot,
      booleanEditorSlot, geoPointEditorSlot, timestampEditorSlot,
      referenceEditorSlot]
  · cases state <;> simp [fieldEditor, stringEditorSlot, numberEditorSlot,
      booleanEditorSlot, geoPointEditorSlot, timestampEditorSlot,
      referenceEditorSlot, isLeafKind, isString, isNumber, isBoolean,
      isGeoPoint, isTimestamp, isReference]

/-- C3: on every render, the declared effect dispatches
`getRequestEvaluationById` with exactly the `evaluationId` route
parameter as its one argument, and no other action. -/
theorem evaluationDetails_fetch_effect
    (selectedEvaluation : Option FirestoreRulesEvaluation)
    (params : RouteParams) :
    (evaluationDetails selectedEvaluation params).effects =
      [RulesAction.getRequestEvaluationById (some params.evaluationId)] := rfl

/-- C6: the `selectedEvaluation` prop equals
`getSelectedRequestEvaluation` applied to the store state, and
`mapStateToProps` is the structured selector built from exactly that one
selector. -/
theorem mapStateToProps_selected_evaluation :
    (∀ state : FirestoreRulesState,
      (mapStateToProps state).selectedEvaluation =
        getSelectedRequestEvaluation state) ∧
    mapStateToProps = createStructuredSelector
      { selectedEvaluation := getSelectedRequestEvaluation } :=
  ⟨fun _ => rfl, rfl⟩

/-- C8: the rules text handed to the code display is the fixed
`sampleRules` constant, for every selected evaluation and route, and so
does not vary with the evaluation, the id, or fetched data. -/
theorem evaluationDetails_rules_text_constant :
    (∀ (selectedEvaluation : Option FirestoreRulesEvaluation)
      (params : RouteParams),
      (evaluationDetails selectedEvaluation params).code.firestoreRules =
        sampleRules) ∧
    (∀ (sel1 sel2 : Option FirestoreRulesEvaluation)
      (params1 params2 : RouteParams),
      (evaluationDetails sel1 params1).code.firestoreRules =
        (evaluationDetails sel2 params2).code.firestoreRules) :=
  ⟨fun _ _ => rfl, fun _ _ _ _ => rfl⟩

/-- C9: the add-field button of an array-valued field appends the
rendering of `path.length` — the number of path segments — as the new
key, so whenever the array's element count differs from the path depth
the new key is not the next array index. -/
theorem arrayAddField_key_is_path_length (path : List String)
    (elements : List FirestoreAny) :
    arrayAddFieldPath path = path ++ [natToString path.length] ∧
    lastFieldName (arrayAddFieldPath path) = natToString path.length ∧
    (elements.length ≠ path.length →
      lastFieldName (arrayAddFieldPath path) ≠ natToString elements.length) := by
  refine ⟨rfl, lastFieldName_append_single path _, fun hne h => ?_⟩
  simp only [arrayAddFieldPath, lastFieldName_append_single] at h
  exact hne (natToString_injective h).symm

/-- C9 witness: for the singleton path and a two-element array the new
key renders the path depth 1, not the element count 2. -/
theorem arrayAddField_key_is_path_length_witness :
    ([FirestoreAny.null, FirestoreAny.null].length ≠ (["a"] : List String).length) ∧
    lastFieldName (arrayAddFieldPath ["a"]) ≠
      natToString [FirestoreAny.null, FirestoreAny.null].length :=
  ⟨by decide,
    (arrayAddField_key_is_path_length ["a"] [FirestoreAny.null, FirestoreAny.null]).2.2
      (by decide)⟩

/-- C10: `supportsEditing` holds exactly when `getFieldType` lands in the
nine Firestore field types — which is every value, independently of the
rtdb flag — while the RTDB type selector offers only the five-type
subset. -/
theorem supportsEditing_iff_field_type_supported :
    (∀ value : FirestoreAny,
      (supportsEditing value = true ↔
        getFieldType value ∈ FIRESTORE_FIELD_TYPES)) ∧
    (∀ value : FirestoreAny, supportsEditing value = true) ∧
    typeSelectOptions true = RTDB_FIELD_TYPES ∧
    typeSelectOptions false = FIRESTORE_FIELD_TYPES ∧
    RTDB_FIELD_TYPES.length = 5 ∧
    FIRESTORE_FIELD_TYPES.length = 9 ∧
    (∀ t ∈ RTDB_FIELD_TYPES, t ∈ FIRESTORE_FIELD_TYPES) := by
  refine ⟨fun value => ?_, fun value => ?_, rfl, rfl, by decide, by decide,
    by decide⟩
  · cases value <;> simp [supportsEditing, supportedFieldTypeSet,
      FIRESTORE_FIELD_TYPES, getFieldType]
  · cases value <;> rfl

/-- C2: the `linesOutcome` list projects exactly the `line` and `outcome`
fields of the granular allow outcomes, positionally and at the same
length; it is undefined when the evaluation or its granular outcomes are
undefined. -/
theorem linesOutcome_matches_granular :
    (∀ (ev : FirestoreRulesEvaluation) (gs : List GranularAllowOutcome),
      ev.granularAllowOutcomes = some gs →
      ∃ ls, linesOutcome (some ev) = some ls ∧ ls.length = gs.length ∧
        ∀ i : Nat,
          ls[i]?.map LineOutcome.line =
            gs[i]?.map GranularAllowOutcome.line ∧
          ls[i]?.map LineOutcome.outcome =
            gs[i]?.map GranularAllowOutcome.outcome) ∧
    linesOutcome none = none ∧
    (∀ ev : FirestoreRulesEvaluation, ev.granularAllowOutcomes = none →
      linesOutcome (some ev) = none) := by
  refine ⟨fun ev gs hgs => ?_, rfl, fun ev hev => ?_⟩
  · refine ⟨gs.map fun g => { line := g.line, outcome := g.outcome }, ?_,
      by simp, fun i => ?_⟩
    · simp [linesOutcome, hgs]
    · constructor <;> (simp [List.getElem?_map] ; cases gs[i]? <;> rfl)
  · simp [linesOutcome, hev]

/-- C2 witness: the concrete evaluation with two granular outcomes. -/
theorem linesOutcome_matches_granular_witness :
    sampleEvaluation.granularAllowOutcomes =
      some [⟨7, RulesOutcome.allow⟩, ⟨9, RulesOutcome.deny⟩] ∧
    ∃ ls, linesOutcome (some sampleEvaluation) = some ls ∧
      ls.length =
        ([⟨7, RulesOutcome.allow⟩, ⟨9, RulesOutcome.deny⟩] :
          List GranularAllowOutcome).length ∧
      ∀ i : Nat,
        ls[i]?.map LineOutcome.line =
          ([⟨7, RulesOutcome.allow⟩, ⟨9, RulesOutcome.deny⟩] :
            List GranularAllowOutcome)[i]?.map GranularAllowOutcome.line ∧
        ls[i]?.map LineOutcome.outcome =
          ([⟨7, RulesOutcome.allow⟩, ⟨9, RulesOutcome.deny⟩] :
            List GranularAllowOutcome)[i]?.map GranularAllowOutcome.outcome :=
  ⟨rfl, linesOutcome_matches_granular.1 sampleEvaluation
    [⟨7, RulesOutcome.allow⟩, ⟨9, RulesOutcome.deny⟩] rfl⟩

theorem renderNested_path (path : List String) (m : Bool) (rk : String)
    (v : FirestoreAny) : (renderNested path m rk v).path = path := by
  cases v <;> rw [renderNested] <;> first
  | rfl
  | (intro _ h ; cases h)

theorem renderNested_keyMutable (path : List String) (m : Bool) (rk : String)
    (v : FirestoreAny) : (renderNested path m rk v).keyMutable = m := by
  cases v <;> rw [renderNested] <;> first
  | rfl
  | (intro _ h ; cases h)

theorem renderNested_reactKey (path : List String) (m : Bool) (rk : String)
    (v : FirestoreAny) : (renderNested path m rk v).reactKey = rk := by
  cases v <;> rw [renderNested] <;> first
  | rfl
  | (intro _ h ; cases h)

theorem renderMapChildren_length (path : List String) :
    ∀ fields : List (String × FirestoreAny),
      (renderMapChildren path fields).length = fields.length
  | [] => rfl
  | _ :: rest => by
      simp [renderMapChildren, renderMapChildren_length path rest]

theorem renderArrayChildren_length (path : List String) :
    ∀ (index : Nat) (elements : List FirestoreAny),
      (renderArrayChildren path index elements).length = elements.length
  | _, [] => rfl
  | index, _ :: rest => by
      simp [renderArrayChildren, renderArrayChildren_length path (index + 1) rest]

theorem renderMapChildren_getElem (path : List String) :
    ∀ (fields : List (String × FirestoreAny)) (i : Nat),
      (renderMapChildren path fields)[i]? =
        (fields[i]?).map fun kv => renderNested (path ++ [kv.1]) true kv.1 kv.2
  | [], i => by simp [renderMapChildren]
  | (k, v) :: rest, 0 => by simp [renderMapChildren]
  | (k, v) :: rest, i + 1 => by
      simp [renderMapChildren, renderMapChildren_getElem path rest i]

theorem renderArrayChildren_getElem (path : List String) :
    ∀ (elements : List FirestoreAny) (index i : Nat),
      (renderArrayChildren path index elements)[i]? =
        (elements[i]?).map fun v =>
          renderNested (path ++ [natToString (index + i)]) false
            (natToString (index + i)) v
  | [], index, i => by simp [renderArrayChildren]
  | v :: rest, index, 0 => by simp [renderArrayChildren]
  | v :: rest, index, i + 1 => by
      have harith : index + 1 + i = index + (i + 1) := by omega
      simp [renderArrayChildren,
        renderArrayChildren_getElem path rest (index + 1) i, harith]

/-- C4: map-valued fields render one child editor per key, at the path
extended by that key, with a mutable key and keyed by the map key;
array-valued fields render one child editor per index, at the path
extended by the rendered index, with an immutable key and keyed by the
index; primitive values render no child editors. -/
theorem nestedEditor_children_traversal :
    (∀ (path : List String) (m : Bool) (rk : String)
      (fields : List (String × FirestoreAny)),
      ∃ cs, (renderNested path m rk (.map fields)).children = some cs ∧
        cs.length = fields.length ∧
        (∀ i : Nat, cs[i]?.map NestedRender.path =
          fields[i]?.map fun kv => path ++ [kv.1]) ∧
        (∀ i : Nat, cs[i]?.map NestedRender.keyMutable =
          fields[i]?.map fun _ => true) ∧
        (∀ i : Nat, cs[i]?.map NestedRender.reactKey =
          fields[i]?.map fun kv => kv.1)) ∧
    (∀ (path : List String) (m : Bool) (rk : String)
      (elements : List FirestoreAny),
      ∃ cs, (renderNested path m rk (.array elements)).children = some cs ∧
        cs.length = elements.length ∧
        (∀ i : Nat, cs[i]?.map NestedRender.path =
          elements[i]?.map fun _ => path ++ [natToString i]) ∧
        (∀ i : Nat, cs[i]?.map NestedRender.keyMutable =
          elements[i]?.map fun _ => false) ∧
        (∀ i : Nat, cs[i]?.map NestedRender.reactKey =
          elements[i]?.map fun _ => natToString i)) ∧
    (∀ (path : List String) (m : Bool) (rk : String) (v : FirestoreAny),
      isPrimitive v = true → (renderNested path m rk v).children = none) := by
  refine ⟨fun path m rk fields => ?_, fun path m rk elements => ?_,
    fun path m rk v hv => ?_⟩
  · refine ⟨renderMapChildren path fields, by simp [renderNested, NestedRender.children],
      renderMapChildren_length path fields, fun i => ?_, fun i => ?_, fun i => ?_⟩
    all_goals
      rw [renderMapChildren_getElem path fields i]
      cases fields[i]? <;> simp [renderNested_path, renderNested_keyMutable,
        renderNested_reactKey]
  · refine ⟨renderArrayChildren path 0 elements,
      by simp [renderNested, NestedRender.children],
      renderArrayChildren_length path 0 elements, fun i => ?_, fun i => ?_,
      fun i => ?_⟩
    all_goals
      rw [renderArrayChildren_getElem path elements 0 i]
      simp only [Nat.zero_add]
      cases elements[i]? <;> simp [renderNested_path, renderNested_keyMutable,
        renderNested_reactKey]
  · cases v <;> simp_all [isPrimitive, isMap, isArray, renderNested,
      NestedRender.children]

/-- C4 witness: a primitive value at a concrete path renders no child
editors. -/
theorem nestedEditor_children_traversal_witness :
    isPrimitive FirestoreAny.null = true ∧
    (renderNested ["k"] true "k" FirestoreAny.null).children = none :=
  ⟨rfl, nestedEditor_children_traversal.2.2 ["k"] true "k" FirestoreAny.null rfl⟩

/-- C5: rendering the connected EvaluationDetails leaves the store state
unchanged, its only dispatched action is the fetch with the route's id,
and every displayed line outcome is drawn from the stored evaluation's
granular outcomes rather than computed by the view. -/
theorem evaluationDetails_read_only (state : FirestoreRulesState)
    (params : RouteParams) :
    (connectedRenderStep state params).1 = state ∧
    (connectedRenderStep state params).2.effects =
      [RulesAction.getRequestEvaluationById (some params.evaluationId)] ∧
    (∀ ls, (connectedRenderStep state params).2.code.linesOutcome = some ls →
      ∃ ev gs, getSelectedRequestEvaluation state = some ev ∧
        ev.granularAllowOutcomes = some gs ∧
        ∀ lo ∈ ls, ∃ g ∈ gs, g.line = lo.line ∧ g.outcome = lo.outcome) := by
  refine ⟨rfl, rfl, fun ls hls => ?_⟩
  have hred : (connectedRenderStep state params).2.code.linesOutcome =
      linesOutcome (getSelectedRequestEvaluation state) := rfl
  rw [hred] at hls
  cases hsel : getSelectedRequestEvaluation state with
  | none => rw [hsel] at hls; simp [linesOutcome] at hls
  | some ev =>
      rw [hsel] at hls
      cases hg : ev.granularAllowOutcomes with
      | none => simp [linesOutcome, hg] at hls
      | some gs =>
          refine ⟨ev, gs, rfl, hg, fun lo hlo => ?_⟩
          have hls2 : ls = gs.map fun g =>
              ({ line := g.line, outcome := g.outcome } : LineOutcome) := by
            simp [linesOutcome, hg] at hls
            exact hls.symm
          rw [hls2] at hlo
          obtain ⟨g, hgmem, hglo⟩ := List.mem_map.mp hlo
          exact ⟨g, hgmem, by rw [← hglo], by rw [← hglo]⟩

/-- C5 witness: the concrete store state and route. -/
theorem evaluationDetails_read_only_witness :
    (connectedRenderStep sampleState ⟨"eval-1"⟩).1 = sampleState ∧
    (connectedRenderStep sampleState ⟨"eval-1"⟩).2.effects =
      [RulesAction.getRequestEvaluationById (some "eval-1")] ∧
    (∀ ls, (connectedRenderStep sampleState ⟨"eval-1"⟩).2.code.linesOutcome =
        some ls →
      ∃ ev gs, getSelectedRequestEvaluation sampleState = some ev ∧
        ev.granularAllowOutcomes = some gs ∧
        ∀ lo ∈ ls, ∃ g ∈ gs, g.line = lo.line ∧ g.outcome = lo.outcome) :=
  evaluationDetails_read_only sampleState ⟨"eval-1"⟩

theorem renderSize_node_none (p : List String) (m : Bool) (rk : String)
    (l : List LeafEditor) : renderSize (.node p m rk l none) = 1 := by
  simp [renderSize]

theorem renderSize_node_some (p : List String) (m : Bool) (rk : String)
    (l : List LeafEditor) (cs : List NestedRender) :
    renderSize (.node p m rk l (some cs)) = 1 + renderListSize cs := by
  simp [renderSize]

theorem renderListSize_nil : renderListSize [] = 0 := by
  simp [renderListSize]

theorem renderListSize_cons (r : NestedRender) (rest : List NestedRender) :
    renderListSize (r :: rest) = renderSize r + renderListSize rest := by
  simp [renderListSize]

theorem nodeCount_map (fields : List (String × FirestoreAny)) :
    nodeCount (.map fields) = 1 + fieldsNodeCount fields := by
  simp [nodeCount]

theorem nodeCount_array (elements : List FirestoreAny) :
    nodeCount (.array elements) = 1 + elementsNodeCount elements := by
  simp [nodeCount]

theorem nodeCount_primitive (v : FirestoreAny) (hv : isPrimitive v = true) :
    nodeCount v = 1 := by
  cases v <;> simp_all [isPrimitive, isMap, isArray, nodeCount]

theorem fieldsNodeCount_nil : fieldsNodeCount [] = 0 := by
  simp [fieldsNodeCount]

theorem fieldsNodeCount_cons (k : String) (v : FirestoreAny)
    (rest : List (String × FirestoreAny)) :
    fieldsNodeCount ((k, v) :: rest) = nodeCount v + fieldsNodeCount rest := by
  simp [fieldsNodeCount]

theorem elementsNodeCount_nil : elementsNodeCount [] = 0 := by
  simp [elementsNodeCount]

theorem elementsNodeCount_cons (v : FirestoreAny)
    (rest : List FirestoreAny) :
    elementsNodeCount (v :: rest) = nodeCount v + elementsNodeCount rest := by
  simp [elementsNodeCount]

mutual

theorem renderNested_size (path : List String) (m : Bool) (rk : String) :
    ∀ v : FirestoreAny, renderSize (renderNested path m rk v) = nodeCount v
  | .str s => by
      rw [renderNested] <;> first
      | (rw [renderSize_node_none] ; rw [nodeCount_primitive (FirestoreAny.str s) rfl])
      | (intro _ h ; cases h)
  | .num n => by
      rw [renderNested] <;> first
      | (rw [renderSize_node_none] ; rw [nodeCount_primitive (FirestoreAny.num n) rfl])
      | (intro _ h ; cases h)
  | .boolean b => by
      rw [renderNested] <;> first
      | (rw [renderSize_node_none] ; rw [nodeCount_primitive (FirestoreAny.boolean b) rfl])
      | (intro _ h ; cases h)
  | .timestamp s ns => by
      rw [renderNested] <;> first
      | (rw [renderSize_node_none] ; rw [nodeCount_primitive (FirestoreAny.timestamp s ns) rfl])
      | (intro _ h ; cases h)
  | .geopoint la lo => by
      rw [renderNested] <;> first
      | (rw [renderSize_node_none] ; rw [nodeCount_primitive (FirestoreAny.geopoint la lo) rfl])
      | (intro _ h ; cases h)
  | .reference p => by
      rw [renderNested] <;> first
      | (rw [renderSize_node_none] ; rw [nodeCount_primitive (FirestoreAny.reference p) rfl])
      | (intro _ h ; cases h)
  | .null => by
      rw [renderNested] <;> first
      | (rw [renderSize_node_none] ; rw [nodeCount_primitive (FirestoreAny.null) rfl])
      | (intro _ h ; cases h)
  | .map fields => by
      rw [renderNested]
      rw [renderSize_node_some, renderMapChildren_size path fields,
        nodeCount_map]
  | .array elements => by
      rw [renderNested]
      rw [renderSize_node_some, renderArrayChildren_size path 0 elements,
        nodeCount_array]

theorem renderMapChildren_size (path : List String) :
    ∀ fields : List (String × FirestoreAny),
      renderListSize (renderMapChildren path fields) = fieldsNodeCount fields
  | [] => by
      rw [renderMapChildren, renderListSize_nil, fieldsNodeCount_nil]
  | (k, v) :: rest => by
      rw [renderMapChildren, renderListSize_cons,
        renderNested_size (path ++ [k]) true k v,
        renderMapChildren_size path rest, fieldsNodeCount_cons]

theorem renderArrayChildren_size (path : List String) :
    ∀ (index : Nat) (elements : List FirestoreAny),
      renderListSize (renderArrayChildren path index elements) =
        elementsNodeCount elements
  | _, [] => by
      rw [renderArrayChildren, renderListSize_nil, elementsNodeCount_nil]
  | index, v :: rest => by
      rw [renderArrayChildren, renderListSize_cons,
        renderNested_size (path ++ [natToString index]) false
          (natToString index) v,
        renderArrayChildren_size path (index + 1) rest, elementsNodeCount_cons]

end

/-- C7: the recursive `NestedEditor` traversal is total on every finite
document tree — it is a well-founded recursion on strict subtrees, and
the render tree it produces contains exactly one editor node per node of
the value tree. -/
theorem nestedEditor_traversal_terminates (path : List String) (m : Bool)
    (rk : String) (v : FirestoreAny) :
    renderSize (renderNested path m rk v) = nodeCount v :=
  renderNested_size path m rk v

/-- C3 witness: the fetch effect at a concrete evaluation and route. -/
theorem evaluationDetails_fetch_effect_witness :
    (evaluationDetails (some sampleEvaluation)
        ⟨"eval-1"⟩).effects =
      [RulesAction.getRequestEvaluationById (some "eval-1")] :=
  evaluationDetails_fetch_effect (some sampleEvaluation) ⟨"eval-1"⟩

/-- C7 witness: the traversal of a concrete two-level document renders
one editor node per value node. -/
theorem nestedEditor_traversal_terminates_witness :
    renderSize (renderNested ["a"] true "a"
        (FirestoreAny.map [("k", FirestoreAny.array [FirestoreAny.null])])) =
      nodeCount
        (FirestoreAny.map [("k", FirestoreAny.array [FirestoreAny.null])]) :=
  nestedEditor_traversal_terminates ["a"] true "a"
    (FirestoreAny.map [("k", FirestoreAny.array [FirestoreAny.null])])

/-- C10 witness: the string type is offered by both selectors and the
null value is editable. -/
theorem supportsEditing_iff_field_type_supported_witness :
    FieldType.string ∈ RTDB_FIELD_TYPES ∧
    FieldType.string ∈ FIRESTORE_FIELD_TYPES ∧
    supportsEditing FirestoreAny.null = true :=
  ⟨by decide,
    supportsEditing_iff_field_type_supported.2.2.2.2.2.2 FieldType.string
      (by decide),
    supportsEditing_iff_field_type_supported.2.1 FirestoreAny.null⟩

end FirebaseToolsUi
